import Mathlib

/-!
Shallow embedding of the semantic configuration validator
(`src/nearcore/src/config_validate.rs`) and proofs of its specified
properties.

The validator reads an already-deserialized `Config` value and checks five
cross-field semantic rules, accumulating every violation message and
returning either success or a single aggregated semantic error.
-/

namespace ConfigValidate

/-- The consensus sub-section of the configuration.  The three block-timing
fields are `Duration` values in the source; a duration is modelled as a `Nat`
(its length in nanoseconds), which preserves the ordering comparisons the
validator performs.  `header_sync_expected_height_per_second` is a `u64`. -/
structure ConsensusConfig where
  min_block_production_delay : Nat
  max_block_production_delay : Nat
  max_block_wait_delay : Nat
  header_sync_expected_height_per_second : Nat
deriving DecidableEq, Repr

/-- The garbage-collection sub-section of the configuration; all three
fields are unsigned integers in the source, modelled as `Nat`. -/
structure GCConfig where
  gc_blocks_limit : Nat
  gc_fork_clean_step : Nat
  gc_num_epochs_to_keep : Nat
deriving DecidableEq, Repr

/-- The configuration fields read by the validator, plus `tracked_shards`
(which the tests of the validator mutate to show it is irrelevant to the
outcome).  The full `Config` struct lives outside the validator and is only
read through these fields. -/
structure Config where
  archive : Bool
  save_trie_changes : Option Bool
  consensus : ConsensusConfig
  gc : GCConfig
  tracked_shards : List Nat
deriving DecidableEq, Repr

/-- Rendering of a numeric configuration value inside an error message.
The source renders `u64` values with `{}`/`{:?}` (decimal) and `Duration`
values with `{:?}`; the exact text of the debug form of a duration is external
to the validator, modelled here as decimal rendering of the numeric value. -/
def valueRepr (n : Nat) : String :=
  Nat.repr n

/-- Message of the archival/GC-safety rule (a fixed literal in the source). -/
def archive_trie_changes_error_message : String :=
  "Configuration with archive = false and save_trie_changes = false is not supported because non-archival nodes must save trie changes in order to do do garbage collection."

/-- Message of the min-vs-max block production delay rule. -/
def min_max_production_error_message (minD maxD : Nat) : String :=
  "min_block_production_delay: " ++ valueRepr minD ++
    " is greater than max_block_production_delay: " ++ valueRepr maxD

/-- Message of the min production delay vs max block wait delay rule. -/
def min_max_wait_error_message (minD maxW : Nat) : String :=
  "min_block_production_delay: " ++ valueRepr minD ++
    " is greater than max_block_wait_delay: " ++ valueRepr maxW

/-- Message of the header-sync rate rule (a fixed literal in the source). -/
def header_sync_error_message : String :=
  "consensus.header_sync_expected_height_per_second should not be 0"

/-- Message of the GC-limits positivity rule, citing all three values. -/
def gc_error_message (blocksLimit forkCleanStep epochsToKeep : Nat) : String :=
  "gc config values should all be greater than 0, but gc_blocks_limit is " ++
    valueRepr blocksLimit ++ ", gc_fork_clean_step is " ++
    valueRepr forkCleanStep ++ ", gc_num_epochs_to_keep is " ++
    valueRepr epochsToKeep ++ "."

/-- First `if` block of `validate_all_conditions`: the archival/GC-safety
rule.  Triggers when `archive == false && save_trie_changes == Some(false)`. -/
def check_archive_trie_changes (c : Config) : List String :=
  if c.archive = false ∧ c.save_trie_changes = some false then
    [archive_trie_changes_error_message]
  else []

/-- Second `if` block: min block production delay strictly greater than max
block production delay. -/
def check_min_max_production (c : Config) : List String :=
  if c.consensus.min_block_production_delay > c.consensus.max_block_production_delay then
    [min_max_production_error_message c.consensus.min_block_production_delay
      c.consensus.max_block_production_delay]
  else []

/-- Third `if` block: min block production delay strictly greater than max
block wait delay. -/
def check_min_max_wait (c : Config) : List String :=
  if c.consensus.min_block_production_delay > c.consensus.max_block_wait_delay then
    [min_max_wait_error_message c.consensus.min_block_production_delay
      c.consensus.max_block_wait_delay]
  else []

/-- Fourth `if` block: header-sync expected height per second equals zero. -/
def check_header_sync (c : Config) : List String :=
  if c.consensus.header_sync_expected_height_per_second = 0 then
    [header_sync_error_message]
  else []

/-- Fifth `if` block: any of the three GC limits equals zero. -/
def check_gc (c : Config) : List String :=
  if c.gc.gc_blocks_limit = 0 ∨ c.gc.gc_fork_clean_step = 0 ∨ c.gc.gc_num_epochs_to_keep = 0 then
    [gc_error_message c.gc.gc_blocks_limit c.gc.gc_fork_clean_step c.gc.gc_num_epochs_to_keep]
  else []

/-- Embedding of `ConfigValidator::validate_all_conditions`: runs all five rule blocks in
source order, accumulating each produced message (the pushes on the accumulator
become list concatenation in evaluation order). -/
def validate_all_conditions (c : Config) : List String :=
  check_archive_trie_changes c ++ check_min_max_production c ++
    check_min_max_wait c ++ check_header_sync c ++ check_gc c

/-- One rendered line of the aggregated report: the message prefixed with
its category tag, as exhibited by the tests of the module
(`\nconfig.json semantic issue: <message>` per accumulated violation). -/
def render_semantics_line (m : String) : String :=
  "\nconfig.json semantic issue: " ++ m

/-- Modelled from the spec: `ValidationErrors::generate_error_message_per_type`
lives in the external `near_config_utils` crate (not under `src/`).  Per the
spec (sections 3 and 4.2) it renders the accumulated violations into one combined
message, one line per violation in insertion order, each line tagged with its
category; it yields no message when the accumulator is empty.  The exact line
shape is taken from the tests of this module. -/
def generate_error_message_per_type (errors : List String) : Option String :=
  if errors.isEmpty then none
  else some (String.join (errors.map render_semantics_line))

/-- Modelled from the spec: the `semantics` variant of the external
`ValidationError` type, wrapping the combined message text. -/
inductive ValidationError where
  | ConfigSemanticsError (error_message : String)
deriving DecidableEq, Repr

/-- Embedding of `ConfigValidator::result_with_full_error`: success when the accumulator
is empty, otherwise the aggregated semantic error.  The source calls
`.unwrap()` on the result of the renderer; a `none` here models the panic that
unwrap would raise, so totality of this function is the no-panic property. -/
def result_with_full_error (errors : List String) : Option (Except ValidationError Unit) :=
  if errors.isEmpty then some (Except.ok ())
  else (generate_error_message_per_type errors).map
    (fun m => Except.error (ValidationError.ConfigSemanticsError m))

/-- Embedding of `validate_config` / `ConfigValidator::validate`: evaluate every rule,
then convert the accumulated messages into the outcome.  (The source also
emits one informational trace event, which does not affect the outcome.) -/
def validate_config (c : Config) : Option (Except ValidationError Unit) :=
  result_with_full_error (validate_all_conditions c)

/-! ### Spec-side trigger predicates (the table of spec section 4.1, in its fixed order) -/

/-- Spec section 4.1, row 1: archival flag is false and trie-retention flag is explicitly
set to false. -/
def archival_gc_safety_triggers (c : Config) : Prop :=
  c.archive = false ∧ c.save_trie_changes = some false

/-- Spec section 4.1, row 2: min block production delay > max block production delay. -/
def min_vs_max_production_triggers (c : Config) : Prop :=
  c.consensus.min_block_production_delay > c.consensus.max_block_production_delay

/-- Spec section 4.1, row 3: min block production delay > max block wait delay. -/
def min_vs_max_wait_triggers (c : Config) : Prop :=
  c.consensus.min_block_production_delay > c.consensus.max_block_wait_delay

/-- Spec section 4.1, row 4: header-sync expected-height-per-second equals zero. -/
def header_sync_rate_triggers (c : Config) : Prop :=
  c.consensus.header_sync_expected_height_per_second = 0

/-- Spec section 4.1, row 5: any of the three GC limits equals zero. -/
def gc_limits_triggers (c : Config) : Prop :=
  c.gc.gc_blocks_limit = 0 ∨ c.gc.gc_fork_clean_step = 0 ∨ c.gc.gc_num_epochs_to_keep = 0

/-- Some rule of the table of spec section 4.1 triggers. -/
def some_rule_triggers (c : Config) : Prop :=
  archival_gc_safety_triggers c ∨ min_vs_max_production_triggers c ∨
    min_vs_max_wait_triggers c ∨ header_sync_rate_triggers c ∨ gc_limits_triggers c

instance (c : Config) : Decidable (archival_gc_safety_triggers c) := by
  unfold archival_gc_safety_triggers; infer_instance

instance (c : Config) : Decidable (min_vs_max_production_triggers c) := by
  unfold min_vs_max_production_triggers; infer_instance

instance (c : Config) : Decidable (min_vs_max_wait_triggers c) := by
  unfold min_vs_max_wait_triggers; infer_instance

instance (c : Config) : Decidable (header_sync_rate_triggers c) := by
  unfold header_sync_rate_triggers; infer_instance

instance (c : Config) : Decidable (gc_limits_triggers c) := by
  unfold gc_limits_triggers; infer_instance

instance (c : Config) : Decidable (some_rule_triggers c) := by
  unfold some_rule_triggers; infer_instance

/-- Number of triggering rules of the table of spec section 4.1. -/
def numTriggered (c : Config) : Nat :=
  (if archival_gc_safety_triggers c then 1 else 0) +
    (if min_vs_max_production_triggers c then 1 else 0) +
    (if min_vs_max_wait_triggers c then 1 else 0) +
    (if header_sync_rate_triggers c then 1 else 0) +
    (if gc_limits_triggers c then 1 else 0)

/-- Substring containment, used to state that a message cites a field name
or value. -/
def containsSub (hay needle : String) : Prop :=
  needle.data <:+: hay.data

instance (hay needle : String) : Decidable (containsSub hay needle) := by
  unfold containsSub
  infer_instance

/-- A configuration passing every rule. -/
def goodConfig : Config :=
  { archive := false, save_trie_changes := none,
    consensus := { min_block_production_delay := 1, max_block_production_delay := 2,
                   max_block_wait_delay := 2, header_sync_expected_height_per_second := 10 },
    gc := { gc_blocks_limit := 2, gc_fork_clean_step := 100, gc_num_epochs_to_keep := 5 },
    tracked_shards := [] }

/-- A configuration triggering all five rules at once. -/
def allBadConfig : Config :=
  { archive := false, save_trie_changes := some false,
    consensus := { min_block_production_delay := 5, max_block_production_delay := 1,
                   max_block_wait_delay := 1, header_sync_expected_height_per_second := 0 },
    gc := { gc_blocks_limit := 0, gc_fork_clean_step := 0, gc_num_epochs_to_keep := 0 },
    tracked_shards := [20] }

/-- A configuration where only the min-vs-max-wait rule triggers: min block
production delay is above the max block wait delay but below the max block
production delay, and every other rule passes. -/
def waitOnlyConfig : Config :=
  { archive := false, save_trie_changes := none,
    consensus := { min_block_production_delay := 5, max_block_production_delay := 10,
                   max_block_wait_delay := 1, header_sync_expected_height_per_second := 10 },
    gc := { gc_blocks_limit := 1, gc_fork_clean_step := 1, gc_num_epochs_to_keep := 1 },
    tracked_shards := [] }

/-- The same configuration as `goodConfig` except for `tracked_shards`. -/
def goodConfigWithShards : Config :=
  { goodConfig with tracked_shards := [0, 1] }

/-- A configuration whose min block production delay equals both the max
block production delay and the max block wait delay. -/
def equalTimingConfig : Config :=
  { archive := true, save_trie_changes := none,
    consensus := { min_block_production_delay := 2, max_block_production_delay := 2,
                   max_block_wait_delay := 2, header_sync_expected_height_per_second := 10 },
    gc := { gc_blocks_limit := 2, gc_fork_clean_step := 100, gc_num_epochs_to_keep := 5 },
    tracked_shards := [] }

/-- The table of spec section 4.1 for a given configuration: each row pairs
the trigger condition of a rule with the message the rule would produce, in
the fixed order of the table. -/
def rule_table (c : Config) : List (Bool × String) :=
  [(decide (archival_gc_safety_triggers c), archive_trie_changes_error_message),
   (decide (min_vs_max_production_triggers c),
     min_max_production_error_message c.consensus.min_block_production_delay
       c.consensus.max_block_production_delay),
   (decide (min_vs_max_wait_triggers c),
     min_max_wait_error_message c.consensus.min_block_production_delay
       c.consensus.max_block_wait_delay),
   (decide (header_sync_rate_triggers c), header_sync_error_message),
   (decide (gc_limits_triggers c),
     gc_error_message c.gc.gc_blocks_limit c.gc.gc_fork_clean_step
       c.gc.gc_num_epochs_to_keep)]

/-- The violation lines the spec expects in the failure report: the message
of every triggering row of the table, one line per row, in table order. -/
def spec_violation_lines (c : Config) : List String :=
  ((rule_table c).filter (fun p => p.1)).map (fun p => p.2)


/-! ### Helper lemmas about the message texts -/

/-- Two strings whose first characters differ are different strings. -/
theorem ne_of_data_head {s t : String} {a b : Char}
    (hs : s.data.head? = some a) (ht : t.data.head? = some b) (hab : a ≠ b) :
    s ≠ t := by
  intro h
  rw [h, ht] at hs
  exact hab (Option.some.inj hs).symm

theorem data_head_archive : archive_trie_changes_error_message.data.head? = some 'C' := rfl

theorem data_head_prod (a b : Nat) :
    (min_max_production_error_message a b).data.head? = some 'm' := by
  simp only [min_max_production_error_message, String.data_append]
  rfl

theorem data_head_wait (a b : Nat) :
    (min_max_wait_error_message a b).data.head? = some 'm' := by
  simp only [min_max_wait_error_message, String.data_append]
  rfl

theorem data_head_header : header_sync_error_message.data.head? = some 'c' := rfl

theorem data_head_gc (a b c : Nat) :
    (gc_error_message a b c).data.head? = some 'g' := by
  simp only [gc_error_message, String.data_append]
  rfl

theorem archive_msg_ne_prod (a b : Nat) :
    archive_trie_changes_error_message ≠ min_max_production_error_message a b :=
  ne_of_data_head data_head_archive (data_head_prod a b) (by decide)

theorem archive_msg_ne_wait (a b : Nat) :
    archive_trie_changes_error_message ≠ min_max_wait_error_message a b :=
  ne_of_data_head data_head_archive (data_head_wait a b) (by decide)

theorem archive_msg_ne_header :
    archive_trie_changes_error_message ≠ header_sync_error_message :=
  ne_of_data_head data_head_archive data_head_header (by decide)

theorem archive_msg_ne_gc (a b c : Nat) :
    archive_trie_changes_error_message ≠ gc_error_message a b c :=
  ne_of_data_head data_head_archive (data_head_gc a b c) (by decide)

/-- The two timing messages differ: after the shared leading segment (which
renders the same min delay on both sides), one continues with
`max_block_production_delay` and the other with `max_block_wait_delay`. -/
theorem prod_msg_ne_wait (a b d : Nat) :
    min_max_production_error_message a b ≠ min_max_wait_error_message a d := by
  intro h
  have hd : (min_max_production_error_message a b).data
      = (min_max_wait_error_message a d).data := by rw [h]
  simp only [min_max_production_error_message, min_max_wait_error_message,
    String.data_append, List.append_assoc] at hd
  have h2 := List.append_cancel_left hd
  have h3 := List.append_cancel_left h2
  have h4 := congrArg (List.take 28) h3
  rw [List.take_append_of_le_length (by decide),
    List.take_append_of_le_length (by decide)] at h4
  exact absurd h4 (by decide)

theorem prod_msg_ne_header (a b : Nat) :
    min_max_production_error_message a b ≠ header_sync_error_message :=
  ne_of_data_head (data_head_prod a b) data_head_header (by decide)

theorem prod_msg_ne_gc (a b x y z : Nat) :
    min_max_production_error_message a b ≠ gc_error_message x y z :=
  ne_of_data_head (data_head_prod a b) (data_head_gc x y z) (by decide)

theorem wait_msg_ne_header (a b : Nat) :
    min_max_wait_error_message a b ≠ header_sync_error_message :=
  ne_of_data_head (data_head_wait a b) data_head_header (by decide)

theorem wait_msg_ne_gc (a b x y z : Nat) :
    min_max_wait_error_message a b ≠ gc_error_message x y z :=
  ne_of_data_head (data_head_wait a b) (data_head_gc x y z) (by decide)

theorem header_msg_ne_gc (x y z : Nat) :
    header_sync_error_message ≠ gc_error_message x y z :=
  ne_of_data_head data_head_header (data_head_gc x y z) (by decide)

theorem prod_msg_ne_archive (a b : Nat) :
    min_max_production_error_message a b ≠ archive_trie_changes_error_message :=
  (archive_msg_ne_prod a b).symm

theorem wait_msg_ne_archive (a b : Nat) :
    min_max_wait_error_message a b ≠ archive_trie_changes_error_message :=
  (archive_msg_ne_wait a b).symm

theorem wait_msg_ne_prod (a d b : Nat) :
    min_max_wait_error_message a d ≠ min_max_production_error_message a b :=
  (prod_msg_ne_wait a b d).symm

theorem header_msg_ne_archive :
    header_sync_error_message ≠ archive_trie_changes_error_message :=
  archive_msg_ne_header.symm

theorem header_msg_ne_prod (a b : Nat) :
    header_sync_error_message ≠ min_max_production_error_message a b :=
  (prod_msg_ne_header a b).symm

theorem header_msg_ne_wait (a b : Nat) :
    header_sync_error_message ≠ min_max_wait_error_message a b :=
  (wait_msg_ne_header a b).symm

theorem gc_msg_ne_archive (x y z : Nat) :
    gc_error_message x y z ≠ archive_trie_changes_error_message :=
  (archive_msg_ne_gc x y z).symm

theorem gc_msg_ne_prod (x y z a b : Nat) :
    gc_error_message x y z ≠ min_max_production_error_message a b :=
  (prod_msg_ne_gc a b x y z).symm

theorem gc_msg_ne_wait (x y z a b : Nat) :
    gc_error_message x y z ≠ min_max_wait_error_message a b :=
  (wait_msg_ne_gc a b x y z).symm

theorem gc_msg_ne_header (x y z : Nat) :
    gc_error_message x y z ≠ header_sync_error_message :=
  (header_msg_ne_gc x y z).symm

/-! ### Helper lemmas: messages cite the offending fields -/

theorem prod_msg_contains_min (a b : Nat) :
    containsSub (min_max_production_error_message a b)
      ("min_block_production_delay: " ++ valueRepr a) := by
  unfold containsSub min_max_production_error_message
  refine ⟨[], (" is greater than max_block_production_delay: " ++ valueRepr b).data, ?_⟩
  simp [String.data_append, List.append_assoc]

theorem prod_msg_contains_max (a b : Nat) :
    containsSub (min_max_production_error_message a b)
      ("max_block_production_delay: " ++ valueRepr b) := by
  unfold containsSub min_max_production_error_message
  rw [show (" is greater than max_block_production_delay: " : String)
      = " is greater than " ++ "max_block_production_delay: " from by decide]
  refine ⟨("min_block_production_delay: " ++ valueRepr a ++ " is greater than ").data, [], ?_⟩
  simp [String.data_append, List.append_assoc]

theorem wait_msg_contains_min (a b : Nat) :
    containsSub (min_max_wait_error_message a b)
      ("min_block_production_delay: " ++ valueRepr a) := by
  unfold containsSub min_max_wait_error_message
  refine ⟨[], (" is greater than max_block_wait_delay: " ++ valueRepr b).data, ?_⟩
  simp [String.data_append, List.append_assoc]

theorem wait_msg_contains_max (a b : Nat) :
    containsSub (min_max_wait_error_message a b)
      ("max_block_wait_delay: " ++ valueRepr b) := by
  unfold containsSub min_max_wait_error_message
  rw [show (" is greater than max_block_wait_delay: " : String)
      = " is greater than " ++ "max_block_wait_delay: " from by decide]
  refine ⟨("min_block_production_delay: " ++ valueRepr a ++ " is greater than ").data, [], ?_⟩
  simp [String.data_append, List.append_assoc]

theorem gc_msg_contains_blocks (a b c : Nat) :
    containsSub (gc_error_message a b c) ("gc_blocks_limit is " ++ valueRepr a) := by
  unfold containsSub gc_error_message
  rw [show ("gc config values should all be greater than 0, but gc_blocks_limit is " : String)
      = "gc config values should all be greater than 0, but " ++ "gc_blocks_limit is "
      from by decide]
  refine ⟨("gc config values should all be greater than 0, but " : String).data,
    (", gc_fork_clean_step is " ++ valueRepr b ++ ", gc_num_epochs_to_keep is "
      ++ valueRepr c ++ ".").data, ?_⟩
  simp [String.data_append, List.append_assoc]

theorem gc_msg_contains_fork (a b c : Nat) :
    containsSub (gc_error_message a b c) ("gc_fork_clean_step is " ++ valueRepr b) := by
  unfold containsSub gc_error_message
  rw [show (", gc_fork_clean_step is " : String) = ", " ++ "gc_fork_clean_step is "
      from by decide]
  refine ⟨("gc config values should all be greater than 0, but gc_blocks_limit is "
      ++ valueRepr a ++ ", ").data,
    (", gc_num_epochs_to_keep is " ++ valueRepr c ++ ".").data, ?_⟩
  simp [String.data_append, List.append_assoc]

theorem gc_msg_contains_epochs (a b c : Nat) :
    containsSub (gc_error_message a b c) ("gc_num_epochs_to_keep is " ++ valueRepr c) := by
  unfold containsSub gc_error_message
  rw [show (", gc_num_epochs_to_keep is " : String) = ", " ++ "gc_num_epochs_to_keep is "
      from by decide]
  refine ⟨("gc config values should all be greater than 0, but gc_blocks_limit is "
      ++ valueRepr a ++ ", gc_fork_clean_step is " ++ valueRepr b ++ ", ").data,
    (("." : String)).data, ?_⟩
  simp [String.data_append, List.append_assoc]

/-! ### Helper lemmas about the outcome -/

theorem vac_eq_nil_iff (c : Config) :
    validate_all_conditions c = [] ↔ ¬ some_rule_triggers c := by
  by_cases h1 : archival_gc_safety_triggers c <;>
  by_cases h2 : min_vs_max_production_triggers c <;>
  by_cases h3 : min_vs_max_wait_triggers c <;>
  by_cases h4 : header_sync_rate_triggers c <;>
  by_cases h5 : gc_limits_triggers c <;>
    simp_all [validate_all_conditions, check_archive_trie_changes,
      check_min_max_production, check_min_max_wait, check_header_sync, check_gc,
      some_rule_triggers, archival_gc_safety_triggers, min_vs_max_production_triggers,
      min_vs_max_wait_triggers, header_sync_rate_triggers, gc_limits_triggers]

theorem validate_config_eq_ok (c : Config) (h : validate_all_conditions c = []) :
    validate_config c = some (Except.ok ()) := by
  unfold validate_config result_with_full_error
  rw [h]
  rfl

theorem validate_config_eq_error (c : Config) (h : validate_all_conditions c ≠ []) :
    validate_config c = some (Except.error (ValidationError.ConfigSemanticsError
      (String.join ((validate_all_conditions c).map render_semantics_line)))) := by
  unfold validate_config result_with_full_error generate_error_message_per_type
  cases hl : validate_all_conditions c with
  | nil => exact absurd hl h
  | cons m t => simp [hl]

/-! ### Helper lemmas: a triggering rule places its message in the output -/

theorem archive_msg_mem (c : Config) (h : archival_gc_safety_triggers c) :
    archive_trie_changes_error_message ∈ validate_all_conditions c := by
  have h' : c.archive = false ∧ c.save_trie_changes = some false := h
  simp [validate_all_conditions, check_archive_trie_changes, h'.1, h'.2]

theorem prod_msg_mem (c : Config) (h : min_vs_max_production_triggers c) :
    min_max_production_error_message c.consensus.min_block_production_delay
      c.consensus.max_block_production_delay ∈ validate_all_conditions c := by
  have h' : c.consensus.min_block_production_delay
      > c.consensus.max_block_production_delay := h
  simp [validate_all_conditions, check_min_max_production, h']

theorem wait_msg_mem (c : Config) (h : min_vs_max_wait_triggers c) :
    min_max_wait_error_message c.consensus.min_block_production_delay
      c.consensus.max_block_wait_delay ∈ validate_all_conditions c := by
  have h' : c.consensus.min_block_production_delay
      > c.consensus.max_block_wait_delay := h
  simp [validate_all_conditions, check_min_max_wait, h']

theorem header_msg_mem (c : Config) (h : header_sync_rate_triggers c) :
    header_sync_error_message ∈ validate_all_conditions c := by
  have h' : c.consensus.header_sync_expected_height_per_second = 0 := h
  simp [validate_all_conditions, check_header_sync, h']

theorem gc_msg_mem (c : Config) (h : gc_limits_triggers c) :
    gc_error_message c.gc.gc_blocks_limit c.gc.gc_fork_clean_step
      c.gc.gc_num_epochs_to_keep ∈ validate_all_conditions c := by
  have h' : c.gc.gc_blocks_limit = 0 ∨ c.gc.gc_fork_clean_step = 0
      ∨ c.gc.gc_num_epochs_to_keep = 0 := h
  simp [validate_all_conditions, check_gc, h']

/-! ### Claim theorems -/

/-- Claim C1: for every configuration, `validate_config` returns success
exactly when none of the five rules of the table of spec section 4.1
triggers; when at least one rule triggers it returns the single aggregated
semantic failure value. -/
theorem validate_ok_iff_no_rule_triggers (c : Config) :
    (validate_config c = some (Except.ok ()) ↔ ¬ some_rule_triggers c) ∧
    (some_rule_triggers c → ∃ msg, validate_config c
      = some (Except.error (ValidationError.ConfigSemanticsError msg))) := by
  constructor
  · constructor
    · intro h
      rw [← vac_eq_nil_iff]
      by_contra hne
      rw [validate_config_eq_error c hne] at h
      exact Except.noConfusion (Option.some.inj h)
    · intro h
      exact validate_config_eq_ok c ((vac_eq_nil_iff c).mpr h)
  · intro h
    refine ⟨_, validate_config_eq_error c ?_⟩
    intro hnil
    exact (vac_eq_nil_iff c).mp hnil h

/-- Witness for C1: `goodConfig` passes every rule and is accepted, while
`allBadConfig` triggers rules and is rejected with an aggregated error. -/
theorem validate_ok_iff_no_rule_triggers_witness :
    validate_config goodConfig = some (Except.ok ()) ∧
    (∃ msg, validate_config allBadConfig
      = some (Except.error (ValidationError.ConfigSemanticsError msg))) :=
  ⟨(validate_ok_iff_no_rule_triggers goodConfig).1.mpr (by decide),
   (validate_ok_iff_no_rule_triggers allBadConfig).2 (by decide)⟩

/-- Claim C3: the archival/GC-safety rule produces its violation exactly when
the archive flag is false and `save_trie_changes` is explicitly `some false`;
with `save_trie_changes` unset or true, or with `archive` true, the message
is absent. -/
theorem archival_rule_iff (c : Config) :
    archive_trie_changes_error_message ∈ validate_all_conditions c ↔
      (c.archive = false ∧ c.save_trie_changes = some false) := by
  by_cases h1 : archival_gc_safety_triggers c <;>
  by_cases h2 : min_vs_max_production_triggers c <;>
  by_cases h3 : min_vs_max_wait_triggers c <;>
  by_cases h4 : header_sync_rate_triggers c <;>
  by_cases h5 : gc_limits_triggers c <;>
    simp_all [validate_all_conditions, check_archive_trie_changes,
      check_min_max_production, check_min_max_wait, check_header_sync, check_gc,
      archival_gc_safety_triggers, min_vs_max_production_triggers,
      min_vs_max_wait_triggers, header_sync_rate_triggers, gc_limits_triggers,
      archive_msg_ne_prod, archive_msg_ne_wait, archive_msg_ne_header,
      archive_msg_ne_gc]

/-- Claim C7: `validate_config` is total (never panics): it always yields a
value, and the renderer the source unwraps yields a message whenever the
accumulator is non-empty. -/
theorem validate_config_never_panics (c : Config) :
    (validate_config c).isSome = true ∧
    (validate_all_conditions c ≠ [] →
      (generate_error_message_per_type (validate_all_conditions c)).isSome = true) := by
  by_cases h : validate_all_conditions c = []
  · refine ⟨?_, fun hne => absurd h hne⟩
    rw [validate_config_eq_ok c h]
    rfl
  · refine ⟨?_, fun _ => ?_⟩
    · rw [validate_config_eq_error c h]
      rfl
    · unfold generate_error_message_per_type
      cases hl : validate_all_conditions c with
      | nil => exact absurd hl h
      | cons m t => simp

/-- Witness for C7 at a configuration with a non-empty accumulator. -/
theorem validate_config_never_panics_witness :
    (validate_config allBadConfig).isSome = true ∧
    (generate_error_message_per_type
      (validate_all_conditions allBadConfig)).isSome = true :=
  ⟨(validate_config_never_panics allBadConfig).1,
   (validate_config_never_panics allBadConfig).2 (by decide)⟩

/-- Claim C8: validation is deterministic and idempotent: two calls on the
same (unchanged) configuration value yield identical outcomes, including
identical aggregated message text. -/
theorem validate_config_deterministic (c₁ c₂ : Config) (h : c₁ = c₂) :
    validate_config c₁ = validate_config c₂ := by
  rw [h]

/-- Witness for C8: two calls on `allBadConfig` agree. -/
theorem validate_config_deterministic_witness :
    validate_config allBadConfig = validate_config allBadConfig :=
  validate_config_deterministic allBadConfig allBadConfig rfl

/-- Claim C9: the outcome depends only on the nine fields the rules read:
two configurations agreeing on `archive`, `save_trie_changes`, the four
consensus fields and the three GC fields (but possibly differing in
`tracked_shards`) get the same outcome and message text. -/
theorem validate_config_ignores_tracked_shards (c₁ c₂ : Config)
    (ha : c₁.archive = c₂.archive)
    (hs : c₁.save_trie_changes = c₂.save_trie_changes)
    (h1 : c₁.consensus.min_block_production_delay
      = c₂.consensus.min_block_production_delay)
    (h2 : c₁.consensus.max_block_production_delay
      = c₂.consensus.max_block_production_delay)
    (h3 : c₁.consensus.max_block_wait_delay = c₂.consensus.max_block_wait_delay)
    (h4 : c₁.consensus.header_sync_expected_height_per_second
      = c₂.consensus.header_sync_expected_height_per_second)
    (h5 : c₁.gc.gc_blocks_limit = c₂.gc.gc_blocks_limit)
    (h6 : c₁.gc.gc_fork_clean_step = c₂.gc.gc_fork_clean_step)
    (h7 : c₁.gc.gc_num_epochs_to_keep = c₂.gc.gc_num_epochs_to_keep) :
    validate_config c₁ = validate_config c₂ := by
  unfold validate_config result_with_full_error generate_error_message_per_type
    validate_all_conditions check_archive_trie_changes check_min_max_production
    check_min_max_wait check_header_sync check_gc
  rw [ha, hs, h1, h2, h3, h4, h5, h6, h7]

/-- Witness for C9: `goodConfig` and `goodConfigWithShards` differ only in
`tracked_shards` and validate identically. -/
theorem validate_config_ignores_tracked_shards_witness :
    validate_config goodConfig = validate_config goodConfigWithShards :=
  validate_config_ignores_tracked_shards goodConfig goodConfigWithShards
    rfl rfl rfl rfl rfl rfl rfl rfl rfl

/-- Claim C10: both block-timing comparisons are strict: when the min block
production delay equals the max block production delay the production rule
produces no violation, and when it equals the max block wait delay the wait
rule produces no violation. -/
theorem timing_rules_strict (c : Config) :
    (c.consensus.min_block_production_delay = c.consensus.max_block_production_delay →
      check_min_max_production c = [] ∧
      min_max_production_error_message c.consensus.min_block_production_delay
        c.consensus.max_block_production_delay ∉ validate_all_conditions c) ∧
    (c.consensus.min_block_production_delay = c.consensus.max_block_wait_delay →
      check_min_max_wait c = [] ∧
      min_max_wait_error_message c.consensus.min_block_production_delay
        c.consensus.max_block_wait_delay ∉ validate_all_conditions c) := by
  constructor
  · intro h
    refine ⟨by simp [check_min_max_production, h], ?_⟩
    by_cases h1 : archival_gc_safety_triggers c <;>
    by_cases h3 : min_vs_max_wait_triggers c <;>
    by_cases h4 : header_sync_rate_triggers c <;>
    by_cases h5 : gc_limits_triggers c <;>
      simp_all [validate_all_conditions, check_archive_trie_changes,
        check_min_max_production, check_min_max_wait, check_header_sync, check_gc,
        archival_gc_safety_triggers, min_vs_max_wait_triggers,
        header_sync_rate_triggers, gc_limits_triggers,
        prod_msg_ne_archive, prod_msg_ne_wait, prod_msg_ne_header, prod_msg_ne_gc]
  · intro h
    refine ⟨by simp [check_min_max_wait, h], ?_⟩
    by_cases h1 : archival_gc_safety_triggers c <;>
    by_cases h2 : min_vs_max_production_triggers c <;>
    by_cases h4 : header_sync_rate_triggers c <;>
    by_cases h5 : gc_limits_triggers c <;>
      simp_all [validate_all_conditions, check_archive_trie_changes,
        check_min_max_production, check_min_max_wait, check_header_sync, check_gc,
        archival_gc_safety_triggers, min_vs_max_production_triggers,
        header_sync_rate_triggers, gc_limits_triggers,
        wait_msg_ne_archive, wait_msg_ne_prod, wait_msg_ne_header, wait_msg_ne_gc]

/-- Witness for C10 at a configuration where min equals both maxima. -/
theorem timing_rules_strict_witness :
    (check_min_max_production equalTimingConfig = [] ∧
      min_max_production_error_message 2 2 ∉ validate_all_conditions equalTimingConfig) ∧
    (check_min_max_wait equalTimingConfig = [] ∧
      min_max_wait_error_message 2 2 ∉ validate_all_conditions equalTimingConfig) :=
  ⟨(timing_rules_strict equalTimingConfig).1 rfl,
   (timing_rules_strict equalTimingConfig).2 rfl⟩

/-- Claim C4: every triggered rule puts a fully formatted message in the
output naming the offending fields and their actual values: the archival rule
names both flags and their values, the timing rules embed both compared
delays, the header-sync rule names the field and its (necessarily zero)
value, and the GC rule embeds all three limits. -/
theorem violation_messages_cite_fields (c : Config) :
    (archival_gc_safety_triggers c →
      archive_trie_changes_error_message ∈ validate_all_conditions c ∧
      containsSub archive_trie_changes_error_message "archive = false" ∧
      containsSub archive_trie_changes_error_message "save_trie_changes = false") ∧
    (min_vs_max_production_triggers c →
      min_max_production_error_message c.consensus.min_block_production_delay
        c.consensus.max_block_production_delay ∈ validate_all_conditions c ∧
      containsSub (min_max_production_error_message c.consensus.min_block_production_delay
        c.consensus.max_block_production_delay)
        ("min_block_production_delay: " ++ valueRepr c.consensus.min_block_production_delay) ∧
      containsSub (min_max_production_error_message c.consensus.min_block_production_delay
        c.consensus.max_block_production_delay)
        ("max_block_production_delay: " ++ valueRepr c.consensus.max_block_production_delay)) ∧
    (min_vs_max_wait_triggers c →
      min_max_wait_error_message c.consensus.min_block_production_delay
        c.consensus.max_block_wait_delay ∈ validate_all_conditions c ∧
      containsSub (min_max_wait_error_message c.consensus.min_block_production_delay
        c.consensus.max_block_wait_delay)
        ("min_block_production_delay: " ++ valueRepr c.consensus.min_block_production_delay) ∧
      containsSub (min_max_wait_error_message c.consensus.min_block_production_delay
        c.consensus.max_block_wait_delay)
        ("max_block_wait_delay: " ++ valueRepr c.consensus.max_block_wait_delay)) ∧
    (header_sync_rate_triggers c →
      header_sync_error_message ∈ validate_all_conditions c ∧
      containsSub header_sync_error_message
        "consensus.header_sync_expected_height_per_second" ∧
      containsSub header_sync_error_message
        (valueRepr c.consensus.header_sync_expected_height_per_second)) ∧
    (gc_limits_triggers c →
      gc_error_message c.gc.gc_blocks_limit c.gc.gc_fork_clean_step
        c.gc.gc_num_epochs_to_keep ∈ validate_all_conditions c ∧
      containsSub (gc_error_message c.gc.gc_blocks_limit c.gc.gc_fork_clean_step
        c.gc.gc_num_epochs_to_keep)
        ("gc_blocks_limit is " ++ valueRepr c.gc.gc_blocks_limit) ∧
      containsSub (gc_error_message c.gc.gc_blocks_limit c.gc.gc_fork_clean_step
        c.gc.gc_num_epochs_to_keep)
        ("gc_fork_clean_step is " ++ valueRepr c.gc.gc_fork_clean_step) ∧
      containsSub (gc_error_message c.gc.gc_blocks_limit c.gc.gc_fork_clean_step
        c.gc.gc_num_epochs_to_keep)
        ("gc_num_epochs_to_keep is " ++ valueRepr c.gc.gc_num_epochs_to_keep)) := by
  have hdr : header_sync_rate_triggers c →
      containsSub header_sync_error_message
        (valueRepr c.consensus.header_sync_expected_height_per_second) := by
    intro h
    have h0 : c.consensus.header_sync_expected_height_per_second = 0 := h
    rw [h0]
    decide
  exact ⟨fun h => ⟨archive_msg_mem c h, by decide, by decide⟩,
    fun h => ⟨prod_msg_mem c h, prod_msg_contains_min _ _, prod_msg_contains_max _ _⟩,
    fun h => ⟨wait_msg_mem c h, wait_msg_contains_min _ _, wait_msg_contains_max _ _⟩,
    fun h => ⟨header_msg_mem c h, by decide, hdr h⟩,
    fun h => ⟨gc_msg_mem c h, gc_msg_contains_blocks _ _ _, gc_msg_contains_fork _ _ _,
      gc_msg_contains_epochs _ _ _⟩⟩

/-- Witness for C4: at `allBadConfig` all five rules trigger and each message
is present in the output. -/
theorem violation_messages_cite_fields_witness :
    archive_trie_changes_error_message ∈ validate_all_conditions allBadConfig ∧
    min_max_production_error_message 5 1 ∈ validate_all_conditions allBadConfig ∧
    min_max_wait_error_message 5 1 ∈ validate_all_conditions allBadConfig ∧
    header_sync_error_message ∈ validate_all_conditions allBadConfig ∧
    gc_error_message 0 0 0 ∈ validate_all_conditions allBadConfig :=
  ⟨((violation_messages_cite_fields allBadConfig).1 (by decide)).1,
   ((violation_messages_cite_fields allBadConfig).2.1 (by decide)).1,
   ((violation_messages_cite_fields allBadConfig).2.2.1 (by decide)).1,
   ((violation_messages_cite_fields allBadConfig).2.2.2.1 (by decide)).1,
   ((violation_messages_cite_fields allBadConfig).2.2.2.2 (by decide)).1⟩

/-- Claim C5: when the min production delay exceeds the max wait delay but
not the max production delay and every other rule passes, the outcome is a
failure whose line list is exactly the min-vs-max-wait message, without the
min-vs-max-production message. -/
theorem wait_only_failure (c : Config)
    (h3 : min_vs_max_wait_triggers c)
    (h2 : ¬ min_vs_max_production_triggers c)
    (h1 : ¬ archival_gc_safety_triggers c)
    (h4 : ¬ header_sync_rate_triggers c)
    (h5 : ¬ gc_limits_triggers c) :
    validate_all_conditions c =
      [min_max_wait_error_message c.consensus.min_block_production_delay
        c.consensus.max_block_wait_delay] ∧
    min_max_production_error_message c.consensus.min_block_production_delay
      c.consensus.max_block_production_delay ∉ validate_all_conditions c ∧
    validate_config c = some (Except.error (ValidationError.ConfigSemanticsError
      (render_semantics_line (min_max_wait_error_message
        c.consensus.min_block_production_delay c.consensus.max_block_wait_delay)))) := by
  have e1 : check_archive_trie_changes c = [] := by
    unfold check_archive_trie_changes
    exact if_neg h1
  have e2 : check_min_max_production c = [] := by
    unfold check_min_max_production
    exact if_neg h2
  have e3 : check_min_max_wait c =
      [min_max_wait_error_message c.consensus.min_block_production_delay
        c.consensus.max_block_wait_delay] := by
    unfold check_min_max_wait
    exact if_pos h3
  have e4 : check_header_sync c = [] := by
    unfold check_header_sync
    exact if_neg h4
  have e5 : check_gc c = [] := by
    unfold check_gc
    exact if_neg h5
  have hvac : validate_all_conditions c =
      [min_max_wait_error_message c.consensus.min_block_production_delay
        c.consensus.max_block_wait_delay] := by
    unfold validate_all_conditions
    rw [e1, e2, e3, e4, e5]
    simp
  refine ⟨hvac, ?_, ?_⟩
  · rw [hvac]
    intro hm
    exact absurd (List.mem_singleton.mp hm) (prod_msg_ne_wait _ _ _)
  · have herr := validate_config_eq_error c (by rw [hvac]; exact List.cons_ne_nil _ _)
    rw [hvac] at herr
    simpa [String.join] using herr

/-- Witness for C5 at `waitOnlyConfig`. -/
theorem wait_only_failure_witness :
    validate_all_conditions waitOnlyConfig = [min_max_wait_error_message 5 1] ∧
    min_max_production_error_message 5 10 ∉ validate_all_conditions waitOnlyConfig ∧
    validate_config waitOnlyConfig = some (Except.error
      (ValidationError.ConfigSemanticsError
        (render_semantics_line (min_max_wait_error_message 5 1)))) :=
  wait_only_failure waitOnlyConfig (by decide) (by decide) (by decide)
    (by decide) (by decide)

/-- Claim C6: the GC-limits rule triggers exactly when one of the three GC
limits is zero; it then contributes a single line whose text cites all three
values and names each zero field as being zero. -/
theorem gc_rule_characterization (c : Config) :
    (gc_error_message c.gc.gc_blocks_limit c.gc.gc_fork_clean_step
        c.gc.gc_num_epochs_to_keep ∈ validate_all_conditions c ↔
      gc_limits_triggers c) ∧
    (gc_limits_triggers c →
      (validate_all_conditions c).count (gc_error_message c.gc.gc_blocks_limit
        c.gc.gc_fork_clean_step c.gc.gc_num_epochs_to_keep) = 1 ∧
      containsSub (gc_error_message c.gc.gc_blocks_limit c.gc.gc_fork_clean_step
        c.gc.gc_num_epochs_to_keep)
        ("gc_blocks_limit is " ++ valueRepr c.gc.gc_blocks_limit) ∧
      containsSub (gc_error_message c.gc.gc_blocks_limit c.gc.gc_fork_clean_step
        c.gc.gc_num_epochs_to_keep)
        ("gc_fork_clean_step is " ++ valueRepr c.gc.gc_fork_clean_step) ∧
      containsSub (gc_error_message c.gc.gc_blocks_limit c.gc.gc_fork_clean_step
        c.gc.gc_num_epochs_to_keep)
        ("gc_num_epochs_to_keep is " ++ valueRepr c.gc.gc_num_epochs_to_keep) ∧
      (c.gc.gc_blocks_limit = 0 →
        containsSub (gc_error_message c.gc.gc_blocks_limit c.gc.gc_fork_clean_step
          c.gc.gc_num_epochs_to_keep) "gc_blocks_limit is 0") ∧
      (c.gc.gc_fork_clean_step = 0 →
        containsSub (gc_error_message c.gc.gc_blocks_limit c.gc.gc_fork_clean_step
          c.gc.gc_num_epochs_to_keep) "gc_fork_clean_step is 0") ∧
      (c.gc.gc_num_epochs_to_keep = 0 →
        containsSub (gc_error_message c.gc.gc_blocks_limit c.gc.gc_fork_clean_step
          c.gc.gc_num_epochs_to_keep) "gc_num_epochs_to_keep is 0")) := by
  constructor
  · by_cases h1 : archival_gc_safety_triggers c <;>
    by_cases h2 : min_vs_max_production_triggers c <;>
    by_cases h3 : min_vs_max_wait_triggers c <;>
    by_cases h4 : header_sync_rate_triggers c <;>
    by_cases h5 : gc_limits_triggers c <;>
      simp_all [validate_all_conditions, check_archive_trie_changes,
        check_min_max_production, check_min_max_wait, check_header_sync, check_gc,
        archival_gc_safety_triggers, min_vs_max_production_triggers,
        min_vs_max_wait_triggers, header_sync_rate_triggers, gc_limits_triggers,
        gc_msg_ne_archive, gc_msg_ne_prod, gc_msg_ne_wait, gc_msg_ne_header]
  · intro h
    refine ⟨?_, gc_msg_contains_blocks _ _ _, gc_msg_contains_fork _ _ _,
      gc_msg_contains_epochs _ _ _, ?_, ?_, ?_⟩
    · have c5 : check_gc c = [gc_error_message c.gc.gc_blocks_limit
          c.gc.gc_fork_clean_step c.gc.gc_num_epochs_to_keep] := by
        unfold check_gc
        exact if_pos h
      have k1 : (check_archive_trie_changes c).count (gc_error_message
          c.gc.gc_blocks_limit c.gc.gc_fork_clean_step c.gc.gc_num_epochs_to_keep) = 0 := by
        unfold check_archive_trie_changes
        by_cases h1 : c.archive = false ∧ c.save_trie_changes = some false
        · rw [if_pos h1]
          simp [List.count_cons, archive_msg_ne_gc]
        · rw [if_neg h1]
          simp
      have k2 : (check_min_max_production c).count (gc_error_message
          c.gc.gc_blocks_limit c.gc.gc_fork_clean_step c.gc.gc_num_epochs_to_keep) = 0 := by
        unfold check_min_max_production
        by_cases h2 : c.consensus.min_block_production_delay
            > c.consensus.max_block_production_delay
        · rw [if_pos h2]
          simp [List.count_cons, prod_msg_ne_gc]
        · rw [if_neg h2]
          simp
      have k3 : (check_min_max_wait c).count (gc_error_message
          c.gc.gc_blocks_limit c.gc.gc_fork_clean_step c.gc.gc_num_epochs_to_keep) = 0 := by
        unfold check_min_max_wait
        by_cases h3 : c.consensus.min_block_production_delay
            > c.consensus.max_block_wait_delay
        · rw [if_pos h3]
          simp [List.count_cons, wait_msg_ne_gc]
        · rw [if_neg h3]
          simp
      have k4 : (check_header_sync c).count (gc_error_message
          c.gc.gc_blocks_limit c.gc.gc_fork_clean_step c.gc.gc_num_epochs_to_keep) = 0 := by
        unfold check_header_sync
        by_cases h4 : c.consensus.header_sync_expected_height_per_second = 0
        · rw [if_pos h4]
          simp [List.count_cons, header_msg_ne_gc]
        · rw [if_neg h4]
          simp
      unfold validate_all_conditions
      rw [List.count_append, List.count_append, List.count_append, List.count_append,
        k1, k2, k3, k4, c5]
      simp [List.count_cons]
    · intro hz
      rw [hz]
      have hc := gc_msg_contains_blocks 0 c.gc.gc_fork_clean_step c.gc.gc_num_epochs_to_keep
      rw [show ("gc_blocks_limit is " ++ valueRepr 0) = "gc_blocks_limit is 0"
        from by decide] at hc
      exact hc
    · intro hz
      rw [hz]
      have hc := gc_msg_contains_fork c.gc.gc_blocks_limit 0 c.gc.gc_num_epochs_to_keep
      rw [show ("gc_fork_clean_step is " ++ valueRepr 0) = "gc_fork_clean_step is 0"
        from by decide] at hc
      exact hc
    · intro hz
      rw [hz]
      have hc := gc_msg_contains_epochs c.gc.gc_blocks_limit c.gc.gc_fork_clean_step 0
      rw [show ("gc_num_epochs_to_keep is " ++ valueRepr 0) = "gc_num_epochs_to_keep is 0"
        from by decide] at hc
      exact hc

/-- Witness for C6 at `allBadConfig`, whose three GC limits are all zero. -/
theorem gc_rule_characterization_witness :
    gc_error_message 0 0 0 ∈ validate_all_conditions allBadConfig ∧
    (validate_all_conditions allBadConfig).count (gc_error_message 0 0 0) = 1 ∧
    containsSub (gc_error_message 0 0 0) "gc_blocks_limit is 0" :=
  ⟨(gc_rule_characterization allBadConfig).1.mpr (by decide),
   ((gc_rule_characterization allBadConfig).2 (by decide)).1,
   ((gc_rule_characterization allBadConfig).2 (by decide)).2.2.2.2.1 rfl⟩

/-! ### Helper lemmas for the completeness claim -/

theorem filter_map_cons (b : Bool) (m : String) (l : List (Bool × String)) :
    ((((b, m) :: l).filter (fun p => p.1)).map (fun p => p.2))
      = (if b = true then [m] else [])
        ++ ((l.filter (fun p => p.1)).map (fun p => p.2)) := by
  cases b <;> simp [List.filter_cons]

theorem vac_eq_spec_lines (c : Config) :
    validate_all_conditions c = spec_violation_lines c := by
  unfold spec_violation_lines rule_table
  rw [filter_map_cons, filter_map_cons, filter_map_cons, filter_map_cons,
    filter_map_cons]
  simp only [List.filter_nil, List.map_nil, List.append_nil, decide_eq_true_eq]
  unfold validate_all_conditions check_archive_trie_changes check_min_max_production
    check_min_max_wait check_header_sync check_gc archival_gc_safety_triggers
    min_vs_max_production_triggers min_vs_max_wait_triggers header_sync_rate_triggers
    gc_limits_triggers
  simp [List.append_assoc]

theorem vac_length (c : Config) :
    (validate_all_conditions c).length = numTriggered c := by
  have l1 : (check_archive_trie_changes c).length
      = if archival_gc_safety_triggers c then 1 else 0 := by
    unfold check_archive_trie_changes archival_gc_safety_triggers
    by_cases hp : c.archive = false ∧ c.save_trie_changes = some false <;> simp [hp]
  have l2 : (check_min_max_production c).length
      = if min_vs_max_production_triggers c then 1 else 0 := by
    unfold check_min_max_production min_vs_max_production_triggers
    by_cases hp : c.consensus.min_block_production_delay
        > c.consensus.max_block_production_delay <;> simp [hp]
  have l3 : (check_min_max_wait c).length
      = if min_vs_max_wait_triggers c then 1 else 0 := by
    unfold check_min_max_wait min_vs_max_wait_triggers
    by_cases hp : c.consensus.min_block_production_delay
        > c.consensus.max_block_wait_delay <;> simp [hp]
  have l4 : (check_header_sync c).length
      = if header_sync_rate_triggers c then 1 else 0 := by
    unfold check_header_sync header_sync_rate_triggers
    by_cases hp : c.consensus.header_sync_expected_height_per_second = 0 <;> simp [hp]
  have l5 : (check_gc c).length = if gc_limits_triggers c then 1 else 0 := by
    unfold check_gc gc_limits_triggers
    by_cases hp : c.gc.gc_blocks_limit = 0 ∨ c.gc.gc_fork_clean_step = 0
        ∨ c.gc.gc_num_epochs_to_keep = 0 <;> simp [hp]
  unfold validate_all_conditions numTriggered
  simp [List.length_append, l1, l2, l3, l4, l5, Nat.add_assoc]

theorem vac_nodup (c : Config) : (validate_all_conditions c).Nodup := by
  by_cases h1 : c.archive = false ∧ c.save_trie_changes = some false <;>
  by_cases h2 : c.consensus.min_block_production_delay
      > c.consensus.max_block_production_delay <;>
  by_cases h3 : c.consensus.min_block_production_delay
      > c.consensus.max_block_wait_delay <;>
  by_cases h4 : c.consensus.header_sync_expected_height_per_second = 0 <;>
  by_cases h5 : c.gc.gc_blocks_limit = 0 ∨ c.gc.gc_fork_clean_step = 0
      ∨ c.gc.gc_num_epochs_to_keep = 0 <;>
    simp [validate_all_conditions, check_archive_trie_changes,
      check_min_max_production, check_min_max_wait, check_header_sync, check_gc,
      h1, h2, h3, h4, h5,
      archive_msg_ne_prod, archive_msg_ne_wait, archive_msg_ne_header,
      archive_msg_ne_gc, prod_msg_ne_wait, prod_msg_ne_header, prod_msg_ne_gc,
      wait_msg_ne_header, wait_msg_ne_gc, header_msg_ne_gc]

/-- Claim C2: completeness of the aggregated report: the produced lines are
exactly the messages of the triggering rules of the table of spec section
4.1, in its fixed order, one line per triggered rule (k lines when k rules
trigger, no early exit, no duplicate), and the failure value carries the
join of exactly those lines. -/
theorem one_line_per_triggered_rule (c : Config) :
    validate_all_conditions c = spec_violation_lines c ∧
    (validate_all_conditions c).length = numTriggered c ∧
    (validate_all_conditions c).Nodup ∧
    (0 < numTriggered c → validate_config c = some (Except.error
      (ValidationError.ConfigSemanticsError
        (String.join ((spec_violation_lines c).map render_semantics_line))))) := by
  refine ⟨vac_eq_spec_lines c, vac_length c, vac_nodup c, fun hpos => ?_⟩
  have hne : validate_all_conditions c ≠ [] := by
    intro h0
    rw [← vac_length c, h0] at hpos
    simp at hpos
  have herr := validate_config_eq_error c hne
  rw [vac_eq_spec_lines c] at herr
  exact herr

/-- Witness for C2 at `allBadConfig`, where all five rules trigger. -/
theorem one_line_per_triggered_rule_witness :
    validate_all_conditions allBadConfig = spec_violation_lines allBadConfig ∧
    (validate_all_conditions allBadConfig).length = numTriggered allBadConfig ∧
    (validate_all_conditions allBadConfig).Nodup ∧
    validate_config allBadConfig = some (Except.error
      (ValidationError.ConfigSemanticsError
        (String.join ((spec_violation_lines allBadConfig).map render_semantics_line)))) :=
  ⟨(one_line_per_triggered_rule allBadConfig).1,
   (one_line_per_triggered_rule allBadConfig).2.1,
   (one_line_per_triggered_rule allBadConfig).2.2.1,
   (one_line_per_triggered_rule allBadConfig).2.2.2 (by decide)⟩

end ConfigValidate
